import Mathlib

/-!
Verification development for the hybrid retrieval and conversational
orchestration pipeline of the rag-on-postgres repository.

The definitions below are shallow embeddings of the Python source:
`src/fastapi_app/postgres_searcher.py` (the hybrid search engine) and
`src/fastapi_app/rag.py` (the conversation orchestrator, query rewriter
and streaming adapter).  SQL statements are embedded twice: once as the
exact statement text built by the source (used for the parameterization
claims) and once as a relational semantics over an abstract catalog
(used for the ranking and fusion claims).  Where the execution order of
rows tied under an ORDER BY key is not fixed by PostgreSQL, the result
is modelled as a relation over all permutations sorted by that key.
-/

namespace RagOnPostgres

/-- Single-quote character, used to reproduce the SQL literals of the source. -/
def sq : String := (Char.ofNat 39).toString

/-- SearchFilter: one predicate dict `\x7bcolumn, comparison_operator, value\x7d`
as consumed by `PostgresSearcher.search` (postgres_searcher.py lines 22-26).
The `value` field holds the string rendering that the f-string interpolation
produces. -/
structure SearchFilter where
  column : String
  comparison_operator : String
  value : String
deriving DecidableEq

/-- Filter clauses built by postgres_searcher.py lines 20-26: the pair is
`(filter_clause_where, filter_clause_and)`.  Only the FIRST filter of the
list is used, and its parts are interpolated into the clause text. -/
def filter_clause (filters : Option (List SearchFilter)) : String × String :=
  match filters with
  | some (f :: _) =>
      let fc := f.column ++ " " ++ f.comparison_operator ++ " " ++ f.value
      ("WHERE " ++ fc, "AND " ++ fc)
  | _ => ("", "")

/-- Text of `vector_query` (postgres_searcher.py lines 28-34), an f-string
with `filter_clause_where` interpolated. -/
def vector_query (filters : Option (List SearchFilter)) : String :=
  "\n            SELECT id, RANK () OVER (ORDER BY embedding <=> :embedding) AS rank\n                FROM items\n                "
    ++ (filter_clause filters).1
    ++ "\n                ORDER BY embedding <=> :embedding\n                LIMIT 20\n            "

/-- Text of `keyword_query` (postgres_searcher.py lines 36-42), an f-string
with `filter_clause_and` interpolated. -/
def keyword_query (filters : Option (List SearchFilter)) : String :=
  "\n            SELECT id, RANK () OVER (ORDER BY ts_rank_cd(to_tsvector("
    ++ sq ++ "english" ++ sq ++ ", description), query) DESC)\n                FROM items, plainto_tsquery("
    ++ sq ++ "english" ++ sq ++ ", :query) query\n                WHERE to_tsvector("
    ++ sq ++ "english" ++ sq ++ ", description) @@ query "
    ++ (filter_clause filters).2
    ++ "\n                ORDER BY ts_rank_cd(to_tsvector("
    ++ sq ++ "english" ++ sq ++ ", description), query) DESC\n                LIMIT 20\n            "

/-- Text of `hybrid_query` (postgres_searcher.py lines 44-59), an f-string
embedding the two sub-query texts as CTEs. -/
def hybrid_query (filters : Option (List SearchFilter)) : String :=
  "\n        WITH semantic_search AS (\n            "
    ++ vector_query filters
    ++ "\n        ),\n        keyword_search AS (\n            "
    ++ keyword_query filters
    ++ "\n        )\n        SELECT\n            COALESCE(semantic_search.id, keyword_search.id) AS id,\n            COALESCE(1.0 / (:k + semantic_search.rank), 0.0) +\n            COALESCE(1.0 / (:k + keyword_search.rank), 0.0) AS score\n        FROM semantic_search\n        FULL OUTER JOIN keyword_search ON semantic_search.id = keyword_search.id\n        ORDER BY score DESC\n        LIMIT 20\n        "

/-- Error raised by `search` when both query text and query vector are empty
(postgres_searcher.py line 68, `ValueError`; named `InvalidQueryError` in
the error taxonomy of the specification). -/
inductive SearchError where
  | invalidQuery
deriving DecidableEq

/-- Which of the three statements is selected by the branch at
postgres_searcher.py lines 61-68. -/
inductive QueryKind where
  | hybrid
  | vectorOnly
  | keywordOnly
deriving DecidableEq

/-- Statement selection (postgres_searcher.py lines 61-68): hybrid when
`query_text is not None and len(query_vector) > 0`, else vector-only when
the vector is non-empty, else keyword-only when the text is present, else
a `ValueError` is raised.  This runs BEFORE any session is opened. -/
def selectQueryKind : Option String → List ℚ → Except SearchError QueryKind
  | some _, _ :: _ => .ok .hybrid
  | none, _ :: _ => .ok .vectorOnly
  | some _, [] => .ok .keywordOnly
  | none, [] => .error .invalidQuery

/-- SQL statement text sent to the store for a given call
(postgres_searcher.py lines 61-68 select among the three query texts). -/
def sql_statement (query_text : Option String) (query_vector : List ℚ)
    (filters : Option (List SearchFilter)) : Except SearchError String :=
  match selectQueryKind query_text query_vector with
  | .error e => .error e
  | .ok .hybrid => .ok (hybrid_query filters)
  | .ok .vectorOnly => .ok (vector_query filters)
  | .ok .keywordOnly => .ok (keyword_query filters)

/-- Bound parameters of the statement execution
(postgres_searcher.py line 74: `\x7b"embedding": to_db(query_vector),
"query": query_text, "k": 60\x7d`). -/
structure BoundParams where
  embedding : List ℚ
  query : Option String
  k : Nat
deriving DecidableEq

/-- Parameter dict passed to `session.execute` (postgres_searcher.py line 74). -/
def bound_params (query_text : Option String) (query_vector : List ℚ) : BoundParams :=
  { embedding := query_vector, query := query_text, k := 60 }

/-! Relational semantics of the three statements over an abstract catalog. -/

/-- Abstract catalog state for one `search` call: the item ids of the
`items` table, the cosine distance `embedding <=> :embedding` of each item
to the query vector, the full-text relevance `ts_rank_cd(...)` of each item
against the query, whether the item matches `plainto_tsquery` (`@@ query`),
and whether the item passes the (at most one) interpolated filter clause. -/
structure CatalogDB where
  ids : List Nat
  dist : Nat → ℚ
  rel : Nat → ℚ
  tsmatch : Nat → Bool
  passes : Nat → Bool

/-- Rows of `items` passing the filter clause (the vector sub-query FROM set). -/
def passSet (db : CatalogDB) : List Nat := db.ids.filter db.passes

/-- Rows of `items` passing both the tsquery match and the filter clause
(the keyword sub-query FROM set). -/
def kSet (db : CatalogDB) : List Nat :=
  db.ids.filter (fun i => db.tsmatch i && db.passes i)

/-- Value of `RANK () OVER (ORDER BY embedding <=> :embedding)` for item `i`:
one plus the number of rows in the window with strictly smaller distance. -/
def vRank (db : CatalogDB) (i : Nat) : Nat :=
  1 + (passSet db).countP (fun j => decide (db.dist j < db.dist i))

/-- Value of `RANK () OVER (ORDER BY ts_rank_cd(...) DESC)` for item `i`:
one plus the number of rows in the window with strictly larger relevance. -/
def kRank (db : CatalogDB) (i : Nat) : Nat :=
  1 + (kSet db).countP (fun j => decide (db.rel i < db.rel j))

/-- Result rows of the vector sub-query: some ordering of the filtered items
sorted by ascending distance (ties in any order, since the ORDER BY key does
not separate them), paired with their rank, truncated by `LIMIT 20`. -/
def IsVectorRows (db : CatalogDB) (rows : List (Nat × Nat)) : Prop :=
  ∃ p : List Nat, p.Perm (passSet db) ∧
    p.Pairwise (fun a b => db.dist a ≤ db.dist b) ∧
    rows = (p.map (fun i => (i, vRank db i))).take 20

/-- Result rows of the keyword sub-query: some ordering of the matching
items sorted by descending relevance, paired with their rank, truncated by
`LIMIT 20`. -/
def IsKeywordRows (db : CatalogDB) (rows : List (Nat × Nat)) : Prop :=
  ∃ p : List Nat, p.Perm (kSet db) ∧
    p.Pairwise (fun a b => db.rel b ≤ db.rel a) ∧
    rows = (p.map (fun i => (i, kRank db i))).take 20

/-- RRF smoothing constant: the `:k` parameter is bound to the literal 60
(postgres_searcher.py line 74). -/
def rrf_k : ℚ := 60

/-- Ids of a sub-ranking. -/
def idsOf (l : List (Nat × Nat)) : List Nat := l.map Prod.fst

/-- Rank of item `i` in a sub-ranking, `none` when the item is absent
(the NULL produced for it by the FULL OUTER JOIN). -/
def rankOf (l : List (Nat × Nat)) (i : Nat) : Option Nat := l.lookup i

/-- One COALESCE term of the fused score: `COALESCE(1.0 / (:k + rank), 0.0)`
(postgres_searcher.py lines 53-54); a missing rank contributes 0. -/
def rrfTerm : Option Nat → ℚ
  | some r => 1 / (rrf_k + (r : ℚ))
  | none => 0

/-- Fused score of item `i` given the two sub-rankings: the sum of the two
COALESCE terms (postgres_searcher.py lines 53-54). -/
def rrfScore (vs ks : List (Nat × Nat)) (i : Nat) : ℚ :=
  rrfTerm (rankOf vs i) + rrfTerm (rankOf ks i)

/-- Ids produced by `FULL OUTER JOIN ... ON semantic_search.id =
keyword_search.id` with `COALESCE(semantic_search.id, keyword_search.id)`:
every id of either sub-ranking, once (listed here in a canonical order;
all uses are up to permutation). -/
def joinIds (vs ks : List (Nat × Nat)) : List Nat :=
  idsOf vs ++ (idsOf ks).filter (fun i => decide (i ∉ idsOf vs))

/-- Scored rows of the outer join, before the final ORDER BY / LIMIT. -/
def fusedRows (vs ks : List (Nat × Nat)) : List (Nat × ℚ) :=
  (joinIds vs ks).map (fun i => (i, rrfScore vs ks i))

/-- Result rows of the hybrid statement: some ordering of the fused rows
sorted by `score DESC` (ties in any order), truncated by `LIMIT 20`
(postgres_searcher.py lines 51-58). -/
def IsHybridRows (vs ks : List (Nat × Nat)) (rows : List (Nat × ℚ)) : Prop :=
  ∃ p : List (Nat × ℚ), p.Perm (fusedRows vs ks) ∧
    p.Pairwise (fun a b => b.2 ≤ a.2) ∧
    rows = p.take 20

/-- Observable output of `PostgresSearcher.search` (postgres_searcher.py
lines 61-83): the error branch fires before any session is opened; in the
success branches the fetched rows are truncated to `query_top`
(`results[:query_top]`, line 80) and each row contributes its id, in row
order, to the hydrated item list. -/
def IsSearchOutput (db : CatalogDB) (query_text : Option String)
    (query_vector : List ℚ) (query_top : Nat)
    (out : Except SearchError (List Nat)) : Prop :=
  match selectQueryKind query_text query_vector with
  | .error e => out = .error e
  | .ok .hybrid =>
      ∃ vs ks rows, IsVectorRows db vs ∧ IsKeywordRows db ks ∧
        IsHybridRows vs ks rows ∧
        out = .ok ((rows.take query_top).map Prod.fst)
  | .ok .vectorOnly =>
      ∃ vs, IsVectorRows db vs ∧ out = .ok ((vs.take query_top).map Prod.fst)
  | .ok .keywordOnly =>
      ∃ ks, IsKeywordRows db ks ∧ out = .ok ((ks.take query_top).map Prod.fst)

/-! Embedding of the orchestrator, query rewriter and streaming adapter
(src/fastapi_app/rag.py). -/

/-- Replacement of every occurrence of a single character, the effect of
the Python `str.replace` calls with one-character patterns. -/
def replaceChar (s : String) (c r : Char) : String :=
  ⟨s.data.map (fun x => if x = c then r else x)⟩

/-- Python `str.strip()`: leading and trailing whitespace removed. -/
def pyStrip (s : String) : String :=
  ⟨((s.data.dropWhile Char.isWhitespace).reverse.dropWhile Char.isWhitespace).reverse⟩

/-- Python `str.startswith(p)`: the characters of `p` are a prefix of `s`. -/
def startswith (s p : String) : Bool := p.data.isPrefixOf s.data

/-- Function `nonewlines` (rag.py lines 22-23): newline and carriage
return characters replaced by spaces. -/
def nonewlines (s : String) : String :=
  replaceChar (replaceChar s (Char.ofNat 10) (Char.ofNat 32)) (Char.ofNat 13) (Char.ofNat 32)

/-- The `Item` dataclass of rag.py (lines 26-31); only the fields read by
`get_sources_content` are carried.  Both fields are optional in the source. -/
structure SourceItem where
  id : Option String
  description : Option String
deriving DecidableEq

/-- Python rendering of an optional string inside an f-string: `None`
renders as the text `None`. -/
def pyStr : Option String → String
  | some s => s
  | none => "None"

/-- Method `get_sources_content` (rag.py lines 116-122): one line
`\x7bitem.id\x7d:\x7bnonewlines(item.description or "")\x7d` per item, in order. -/
def get_sources_content (items : List SourceItem) : List String :=
  items.map (fun item => pyStr item.id ++ ":" ++ nonewlines (item.description.getD ""))

/-- Sentinel `NO_RESPONSE` (rag.py line 74). -/
def NO_RESPONSE : String := "0"

/-- Parsed arguments of a tool call.  The source stores the raw JSON text
and calls `json.loads` on it (rag.py line 166); the embedding carries the
outcome of that parse: `none` when the text is not parseable JSON (where
`json.loads` raises `JSONDecodeError`), otherwise the key/value pairs of
the decoded object. -/
structure ToolFunction where
  name : String
  arguments : Option (List (String × String))
deriving DecidableEq

/-- One entry of `response_message.tool_calls` (rag.py lines 160-169). -/
structure ToolCall where
  type : String
  function : ToolFunction
deriving DecidableEq

/-- The message of `chat_completion.choices[0]` as read by
`get_search_query` (rag.py lines 157-173): its tool calls (empty list when
the model returned none) and its optional plain content. -/
structure ResponseMessage where
  tool_calls : List ToolCall
  content : Option String
deriving DecidableEq

/-- Loop over `response_message.tool_calls` (rag.py lines 161-169): skip
non-function calls, and for a `search_sources` call parse the arguments —
`json.loads` raises on malformed text, which propagates out of
`get_search_query` — then return the extracted query unless it is the
sentinel; when the loop falls through, the original user query is returned
(rag.py line 173). -/
def scan_tool_calls (user_query : String) : List ToolCall → Except String String
  | [] => .ok user_query
  | tc :: rest =>
      if tc.type ≠ "function" then scan_tool_calls user_query rest
      else if tc.function.name = "search_sources" then
        match tc.function.arguments with
        | none => .error "JSONDecodeError"
        | some arg =>
            let search_query := (arg.lookup "search_query").getD NO_RESPONSE
            if search_query ≠ NO_RESPONSE then .ok search_query
            else scan_tool_calls user_query rest
      else scan_tool_calls user_query rest

/-- Method `get_search_query` (rag.py lines 157-173).  The `Except` result
records whether the call raised (`json.loads` on malformed arguments) or
returned a query string.  The `elif` branch fires only when `tool_calls`
is falsy and `content` is truthy (non-`None`, non-empty). -/
def get_search_query (rm : ResponseMessage) (user_query : String) : Except String String :=
  if rm.tool_calls ≠ [] then scan_tool_calls user_query rm.tool_calls
  else
    match rm.content with
    | some query_text =>
        if query_text ≠ "" then
          if pyStrip query_text ≠ NO_RESPONSE then .ok query_text else .ok user_query
        else .ok user_query
    | none => .ok user_query

/-- Text of `system_message_chat_conversation` (rag.py lines 86-93) before
the replacement field: everything up to `\x7binjected_prompt\x7d`. -/
def sys_prompt_pre : String :=
  "Assistant helps customers with questions about producs.\n        Answer ONLY with the product details listed in the sources. If there isn"
    ++ sq ++ "t enough information below, say you don" ++ sq
    ++ "t know. Do not generate answers that don" ++ sq
    ++ "t use the sources below.\n        For tabular information return it as an html table. Do not return markdown format. If the question is not in English, answer in the language used in the question.\n        Each source has a name followed by colon and the actual information, always include the source name for each fact you use in the response. Use square brackets to reference the source, for example [info1.txt]. Don"
    ++ sq
    ++ "t combine sources, list each source separately, for example [info1.txt][info2.pdf].\n        "

/-- Text of `system_message_chat_conversation` after the replacement field. -/
def sys_prompt_post : String := "\n        "

/-- The built-in system prompt template (rag.py lines 86-93), containing
exactly one replacement field `\x7binjected_prompt\x7d`. -/
def system_message_chat_conversation : String :=
  sys_prompt_pre ++ "{injected_prompt}" ++ sys_prompt_post

/-- Python `str.format(injected_prompt=inj)` applied to the template: the
single replacement field is substituted by `inj`. -/
def format_injected (inj : String) : String :=
  sys_prompt_pre ++ inj ++ sys_prompt_post

/-- Method `get_system_prompt` (rag.py lines 145-155). -/
def get_system_prompt (override_prompt : Option String) : String :=
  match override_prompt with
  | none => format_injected ""
  | some o =>
      if startswith o ">>>" then format_injected (o.drop 3 ++ "\n")
      else o

/-- One turn of the conversation history, `\x7brole, content\x7d`. -/
structure ChatMessage where
  role : String
  content : String
deriving DecidableEq

/-- Content of `history[-1]` (rag.py line 263); the source indexes an
assumed-nonempty list. -/
def lastContent (history : List ChatMessage) : String :=
  (history.getLastD { role := "user", content := "" }).content

/-- The caller overrides read by `run_until_final_call` (rag.py lines
255-259 and 332). -/
structure Overrides where
  retrieval_mode : Option String := none
  top : Option Nat := none
  prompt_template : Option String := none

/-- Flag `has_text` (rag.py line 255):
`overrides.get("retrieval_mode") in ["text", "hybrid", None]`. -/
def has_text (o : Overrides) : Bool :=
  o.retrieval_mode == some "text" || o.retrieval_mode == some "hybrid"
    || o.retrieval_mode == none

/-- Flag `has_vector` (rag.py line 256):
`overrides.get("retrieval_mode") in ["vectors", "hybrid", None]`. -/
def has_vector (o : Overrides) : Bool :=
  o.retrieval_mode == some "vectors" || o.retrieval_mode == some "hybrid"
    || o.retrieval_mode == none

/-- Observable state of the RETRIEVE step of `run_until_final_call`:
the rewritten-then-possibly-suppressed `query_text` local (rag.py lines
307 and 316-318, recorded in the trace), the computed embedding vector
(lines 311-314) and the three positional arguments of the
`self.searcher.hybrid_search(original_user_query, vector, top)` call
(lines 320-324). -/
structure RetrieveStep where
  query_text : Option String
  vector : List ℚ
  searcher_text_arg : String
  searcher_vector_arg : List ℚ
  searcher_top_arg : Nat
deriving DecidableEq

/-- REWRITE/EMBED/RETRIEVE slice of `run_until_final_call` (rag.py lines
255-324), parameterized by the rewrite response message and by the
embedding function.  When `get_search_query` raises, the error propagates
and the pipeline fails before retrieval; otherwise the searcher is invoked
with `original_user_query` as its first (text) argument — NOT with the
`query_text` local, which the source computes, suppresses by mode, and
then only records in the trace. -/
def run_retrieve_step (o : Overrides) (history : List ChatMessage)
    (rm : ResponseMessage) (embed : String → List ℚ) :
    Except String RetrieveStep :=
  match get_search_query rm (lastContent history) with
  | .error e => .error e
  | .ok qt =>
      let vector : List ℚ := if has_vector o then embed (lastContent history) else []
      .ok { query_text := if has_text o then some qt else none
          , vector := vector
          , searcher_text_arg := lastContent history
          , searcher_vector_arg := vector
          , searcher_top_arg := o.top.getD 3 }

/-- Constant `response_token_limit` (rag.py line 334). -/
def response_token_limit : Nat := 1024

/-- Total serialized size of a message list under a token counter. -/
def totalTokens (tok : ChatMessage → Nat) (l : List ChatMessage) : Nat :=
  (l.map tok).sum

/-- Modelled from the spec: the history-truncation core of the external
`build_messages` helper (`llm_messages_token_helper` package, imported at
rag.py line 11; its implementation is not part of this repository).  Per
the token-budget policy of the specification it keeps the longest suffix
of the past messages that fits the remaining budget, dropping the oldest
turns first. -/
def dropOldest (tok : ChatMessage → Nat) (budget : Nat) :
    List ChatMessage → List ChatMessage
  | [] => []
  | m :: rest =>
      if totalTokens tok (m :: rest) ≤ budget then m :: rest
      else dropOldest tok budget rest

/-- Modelled from the spec: `build_messages(model, system_prompt,
new_user_message, past_messages, max_tokens)` of the external
`llm_messages_token_helper` package.  It assembles the system instruction,
the budget-fitting suffix of the past messages, and the final user
message; the system instruction and the final user message are never
dropped. -/
def build_messages (tok : ChatMessage → Nat) (system_prompt : String)
    (new_user_message : String) (past_messages : List ChatMessage)
    (max_tokens : Nat) : List ChatMessage :=
  let sys : ChatMessage := { role := "system", content := system_prompt }
  let usr : ChatMessage := { role := "user", content := new_user_message }
  sys :: (dropOldest tok (max_tokens - tok sys - tok usr) past_messages ++ [usr])

/-- ASSEMBLE step of `run_until_final_call` (rag.py lines 326-343): the
sources block is the newline join of `get_sources_content`, the new user
message is the original query plus the serialized sources, and the budget
is the model token limit minus the reserved response tokens. -/
def assemble_messages (tok : ChatMessage → Nat) (gpt_token_limit : Nat)
    (prompt_template : Option String) (original_user_query : String)
    (items : List SourceItem) (history : List ChatMessage) : List ChatMessage :=
  build_messages tok (get_system_prompt prompt_template)
    (original_user_query ++ "\n\nSources:\n"
      ++ String.intercalate "\n" (get_sources_content items))
    history (gpt_token_limit - response_token_limit)

/-! Embedding of the streaming adapter (`run_with_streaming`, rag.py lines
201-228). -/

/-- One trace step (`ThoughtStep` dataclass, rag.py lines 54-58), carried
opaquely by the synthetic chunk. -/
structure ThoughtStep where
  title : String
  description : Option String
  props : Option (List (String × String)) := none
deriving DecidableEq

/-- The `extra_info` trace attached to the synthetic chunk (rag.py lines
345-382): `data_points` is the `\x7b"text": sources_content\x7d` dict and
`thoughts` the ordered trace. -/
structure ExtraInfo where
  data_points : List String
  thoughts : List ThoughtStep
deriving DecidableEq

/-- A chunk delta `\x7brole?, content?\x7d`. -/
structure Delta where
  role : Option String := none
  content : Option String := none
deriving DecidableEq

/-- One element of a chunk choice list; the synthetic chunk additionally
carries `context` and `session_state` (rag.py lines 213-219). -/
structure ChunkChoice where
  delta : Delta
  context : Option ExtraInfo := none
  session_state : Option String := none
  finish_reason : Option String := none
  index : Nat := 0
deriving DecidableEq

/-- One streamed chunk object. -/
structure Chunk where
  choices : List ChunkChoice
  object : String := "chat.completion.chunk"
deriving DecidableEq

/-- The synthetic leading chunk yielded at rag.py lines 211-222: a
role-announcement delta with no content, carrying the trace and the
session state. -/
def synthetic_chunk (extra : ExtraInfo) (session_state : Option String) : Chunk :=
  { choices :=
      [ { delta := { role := some "assistant", content := none }
        , context := some extra
        , session_state := session_state
        , finish_reason := none
        , index := 0 } ]
  , object := "chat.completion.chunk" }

/-- Output sequence of `run_with_streaming` (rag.py lines 201-228): the
synthetic chunk is yielded first, before the upstream stream is awaited;
each upstream chunk is then converted with `model_dump` (identity on the
carried data) and forwarded exactly when its choice list is non-empty
(the `if event["choices"]` guard at line 227). -/
def run_with_streaming (extra : ExtraInfo) (session_state : Option String)
    (upstream : List Chunk) : List Chunk :=
  synthetic_chunk extra session_state
    :: upstream.filter (fun c => !c.choices.isEmpty)

/-! Claim theorems. -/

/-- C4: when both `query_text` and `query_vector` are empty, `search` fails
with the invalid-query error (`ValueError`, the `InvalidQueryError` of the
error taxonomy), and this outcome is fixed independently of the catalog
state: the statement-selection branch (postgres_searcher.py lines 61-68)
raises before any session is opened, so no query reaches the store. -/
theorem c4_invalid_query (db : CatalogDB) (query_top : Nat)
    (out : Except SearchError (List Nat)) :
    (IsSearchOutput db none [] query_top out ↔ out = .error .invalidQuery) ∧
    selectQueryKind none [] = .error .invalidQuery ∧
    sql_statement none [] none = .error .invalidQuery :=
  ⟨Iff.rfl, rfl, rfl⟩

/-- Witness for C4 at a concrete catalog, top value and output. -/
theorem c4_invalid_query_witness :
    (IsSearchOutput
        { ids := [], dist := fun _ => 0, rel := fun _ => 0
        , tsmatch := fun _ => false, passes := fun _ => false }
        none [] 5 (.error .invalidQuery) ↔
      (.error .invalidQuery : Except SearchError (List Nat)) = .error .invalidQuery) ∧
    selectQueryKind none [] = .error .invalidQuery := by
  have h := c4_invalid_query
    { ids := [], dist := fun _ => 0, rel := fun _ => 0
    , tsmatch := fun _ => false, passes := fun _ => false }
    5 (.error .invalidQuery)
  exact ⟨h.1, h.2.1⟩

/-- Response message whose only tool call is a `search_sources` function
call with malformed (non-JSON-parseable) arguments. -/
def rm_malformed : ResponseMessage :=
  { tool_calls :=
      [ { type := "function"
        , function := { name := "search_sources", arguments := none } } ]
  , content := none }

/-- C5 counterexample: on a malformed tool call, `get_search_query` raises
the JSON decode error instead of falling back to the verbatim last user
message — the claimed fallback does not exist in the code (rag.py line 166
calls `json.loads` with no exception handler). -/
theorem c5_counterexample :
    get_search_query rm_malformed "What red shoes do you have?" = .error "JSONDecodeError" ∧
    get_search_query rm_malformed "What red shoes do you have?" ≠ .ok "What red shoes do you have?" := by
  have h1 : get_search_query rm_malformed "What red shoes do you have?"
      = .error "JSONDecodeError" := rfl
  exact ⟨h1, by rw [h1]; exact fun h => Except.noConfusion h⟩

/-- C5 (amended): whenever the first tool call of the rewrite response is a
function call named `search_sources` with malformed arguments,
`get_search_query` raises (the `json.loads` error propagates and the
pipeline fails); no fallback to the last user message happens. -/
theorem c5_malformed_arguments_raise (rest : List ToolCall) (c : Option String)
    (uq : String) (tc : ToolCall) (htype : tc.type = "function")
    (hname : tc.function.name = "search_sources")
    (hargs : tc.function.arguments = none) :
    get_search_query { tool_calls := tc :: rest, content := c } uq
      = .error "JSONDecodeError" := by
  simp [get_search_query, scan_tool_calls, htype, hname, hargs]

/-- Witness for C5 (amended) at a concrete malformed tool call. -/
theorem c5_malformed_arguments_raise_witness :
    rm_malformed.tool_calls =
      [ { type := "function"
        , function := { name := "search_sources", arguments := none } } ] ∧
    get_search_query rm_malformed "What red shoes do you have?" = .error "JSONDecodeError" :=
  ⟨rfl, c5_malformed_arguments_raise [] none "What red shoes do you have?"
    { type := "function", function := { name := "search_sources", arguments := none } }
    rfl rfl rfl⟩

/-- C6: the streaming adapter emits exactly one synthetic leading chunk —
a role-announcement delta with no content carrying the trace — ordered
before every upstream chunk; the subsequent output chunks are exactly the
upstream chunks with a non-empty choice list, forwarded verbatim, and
empty-choice upstream chunks are dropped. -/
theorem c6_streaming_adapter (extra : ExtraInfo) (ss : Option String)
    (upstream : List Chunk) (hne : upstream ≠ []) :
    (run_with_streaming extra ss upstream).head? = some (synthetic_chunk extra ss) ∧
    (synthetic_chunk extra ss).choices =
      [ { delta := { role := some "assistant", content := none }
        , context := some extra, session_state := ss
        , finish_reason := none, index := 0 } ] ∧
    (run_with_streaming extra ss upstream).tail
      = upstream.filter (fun c => !c.choices.isEmpty) ∧
    (run_with_streaming extra ss upstream).length
      = 1 + (upstream.filter (fun c => !c.choices.isEmpty)).length ∧
    ∀ c ∈ (run_with_streaming extra ss upstream).tail, c ∈ upstream := by
  refine ⟨rfl, rfl, rfl, by simp [run_with_streaming, Nat.add_comm], ?_⟩
  intro c hc
  rw [show (run_with_streaming extra ss upstream).tail
      = upstream.filter (fun c => !c.choices.isEmpty) from rfl] at hc
  exact List.mem_of_mem_filter hc

/-- Concrete trace used by the C6 witness. -/
def extra0 : ExtraInfo := { data_points := ["1:red shoe"], thoughts := [] }

/-- Concrete upstream stream for the C6 witness: one empty-choice chunk
(the known provider quirk) followed by one content chunk. -/
def up0 : List Chunk :=
  [ { choices := [] }
  , { choices := [ { delta := { role := none, content := some "Hello" } } ] } ]

/-- Witness for C6 at a concrete trace and upstream stream. -/
theorem c6_streaming_adapter_witness :
    up0 ≠ [] ∧
    (run_with_streaming extra0 none up0).head? = some (synthetic_chunk extra0 none) ∧
    (run_with_streaming extra0 none up0).length
      = 1 + (up0.filter (fun c => !c.choices.isEmpty)).length := by
  have h := c6_streaming_adapter extra0 none up0 (by decide)
  exact ⟨by decide, h.1, h.2.2.2.1⟩

/-- Statement selection depends only on the presence of the text query and
the non-emptiness of the vector, not on their values. -/
theorem selectQueryKind_congr (qt qt' : Option String) (qv qv' : List ℚ)
    (ht : qt.isSome = qt'.isSome) (hv : qv = [] ↔ qv' = []) :
    selectQueryKind qt qv = selectQueryKind qt' qv' := by
  cases qt <;> cases qt' <;> cases qv <;> cases qv' <;>
    simp_all [selectQueryKind]

set_option maxRecDepth 8000 in
/-- C9 counterexample: two `search` calls differing only in the first
filter value (`10` vs `20`) produce different SQL statement texts — the
filter clause is interpolated into the statement by string formatting
(postgres_searcher.py lines 20-26), not bound as a parameter. -/
theorem c9_counterexample :
    keyword_query (some [{ column := "price", comparison_operator := ">", value := "10" }])
      ≠ keyword_query (some [{ column := "price", comparison_operator := ">", value := "20" }]) ∧
    sql_statement (some "shoes") []
        (some [{ column := "price", comparison_operator := ">", value := "10" }])
      = .ok (keyword_query (some [{ column := "price", comparison_operator := ">", value := "10" }])) ∧
    sql_statement (some "shoes") []
        (some [{ column := "price", comparison_operator := ">", value := "20" }])
      = .ok (keyword_query (some [{ column := "price", comparison_operator := ">", value := "20" }])) :=
  ⟨by decide, rfl, rfl⟩

/-- C9 (amended): the statement text is invariant under changes of the
`query_text` and `query_vector` values — those reach the store only
through the bound parameters `:query`, `:embedding` (with `:k` fixed at
60) — but a filter value change changes the statement text itself, as the
counterexample shows. -/
theorem c9_parameterization (qt qt' : Option String) (qv qv' : List ℚ)
    (filters : Option (List SearchFilter))
    (ht : qt.isSome = qt'.isSome) (hv : qv = [] ↔ qv' = []) :
    sql_statement qt qv filters = sql_statement qt' qv' filters ∧
    bound_params qt qv = { embedding := qv, query := qt, k := 60 } := by
  constructor
  · unfold sql_statement
    rw [selectQueryKind_congr qt qt' qv qv' ht hv]
  · rfl

/-- Witness for C9 (amended) at concrete differing text and vector values. -/
theorem c9_parameterization_witness :
    (some "red" : Option String).isSome = (some "blue" : Option String).isSome ∧
    (([1] : List ℚ) = [] ↔ ([2, 3] : List ℚ) = []) ∧
    sql_statement (some "red") [1] none = sql_statement (some "blue") [2, 3] none ∧
    bound_params (some "red") [1] = { embedding := [1], query := some "red", k := 60 } := by
  have h := c9_parameterization (some "red") (some "blue") [1] [2, 3] none rfl (by simp)
  exact ⟨rfl, by simp, h.1, h.2⟩

/-- C10: with no `prompt_template` override the generation system message
is the built-in template with nothing injected; with a `>>>`-prefixed
override the remainder of the override plus a newline is injected into the
built-in template; any other override replaces the system message verbatim
(rag.py lines 145-155). -/
theorem c10_system_prompt_override (o : String) :
    get_system_prompt none = sys_prompt_pre ++ "" ++ sys_prompt_post ∧
    system_message_chat_conversation
      = sys_prompt_pre ++ "{injected_prompt}" ++ sys_prompt_post ∧
    (startswith o ">>>" = true →
      get_system_prompt (some o)
        = sys_prompt_pre ++ (o.drop 3 ++ "\n") ++ sys_prompt_post) ∧
    (startswith o ">>>" = false → get_system_prompt (some o) = o) := by
  refine ⟨by simp [get_system_prompt, format_injected], rfl, fun h => ?_, fun h => ?_⟩
  · simp [get_system_prompt, h, format_injected]
  · simp [get_system_prompt, h]

/-- Witness for C10 at a concrete injected override and a concrete
replacement override. -/
theorem c10_system_prompt_override_witness :
    startswith ">>>Use emoji" ">>>" = true ∧
    get_system_prompt (some ">>>Use emoji")
      = sys_prompt_pre ++ ((">>>Use emoji").drop 3 ++ "\n") ++ sys_prompt_post ∧
    startswith "a custom prompt" ">>>" = false ∧
    get_system_prompt (some "a custom prompt") = "a custom prompt" :=
  ⟨by decide, (c10_system_prompt_override ">>>Use emoji").2.2.1 (by decide),
    by decide, (c10_system_prompt_override "a custom prompt").2.2.2 (by decide)⟩

/-- C2: every item appearing in either sub-ranking appears in the outer
join with fused score `1/(k + vector_rank) + 1/(k + keyword_rank)` where a
missing rank contributes 0 (the COALESCE default of postgres_searcher.py
lines 53-54) and the smoothing constant `k` is fixed at 60; in particular
`rrfTerm` maps rank `r` to `1/(60 + r)` and a missing rank to 0. -/
theorem c2_rrf_fused_score (vs ks : List (Nat × Nat)) (i : Nat)
    (rv rk : Option Nat) (hv : rankOf vs i = rv) (hk : rankOf ks i = rk)
    (hmem : i ∈ idsOf vs ∨ i ∈ idsOf ks) :
    (i, rrfTerm rv + rrfTerm rk) ∈ fusedRows vs ks ∧
    rrfScore vs ks i = rrfTerm rv + rrfTerm rk ∧
    rrf_k = 60 ∧ (∀ r : Nat, rrfTerm (some r) = 1 / (60 + (r : ℚ))) ∧
    rrfTerm none = 0 ∧ rrfTerm (some 1) = 1 / 61 := by
  have hscore : rrfScore vs ks i = rrfTerm rv + rrfTerm rk := by
    rw [rrfScore, hv, hk]
  have hjoin : i ∈ joinIds vs ks := by
    rcases hmem with h | h
    · exact List.mem_append_left _ h
    · by_cases hvs : i ∈ idsOf vs
      · exact List.mem_append_left _ hvs
      · exact List.mem_append_right _
          (List.mem_filter.mpr ⟨h, decide_eq_true hvs⟩)
  refine ⟨?_, hscore, rfl, fun r => rfl, rfl, by norm_num [rrfTerm, rrf_k]⟩
  have hm : (i, rrfScore vs ks i) ∈ fusedRows vs ks :=
    List.mem_map_of_mem _ hjoin
  rw [hscore] at hm
  exact hm

/-- Witness for C2 at the example of the specification: vector rank 1 and
no keyword rank give fused score exactly 1/61. -/
theorem c2_rrf_fused_score_witness :
    rankOf [(7, 1)] 7 = some 1 ∧
    rankOf ([] : List (Nat × Nat)) 7 = none ∧
    (7 ∈ idsOf [(7, 1)] ∨ 7 ∈ idsOf ([] : List (Nat × Nat))) ∧
    ((7 : Nat), (1 : ℚ) / 61) ∈ fusedRows [(7, 1)] [] ∧
    rrfScore [(7, 1)] [] 7 = 1 / 61 := by
  have h := c2_rrf_fused_score [(7, 1)] [] 7 (some 1) none rfl rfl
    (Or.inl (by decide))
  have e : rrfTerm (some 1) + rrfTerm none = (1 : ℚ) / 61 := by
    norm_num [rrfTerm, rrf_k]
  exact ⟨rfl, rfl, Or.inl (by decide), by rw [← e]; exact h.1,
    by rw [h.2.1, e]⟩

/-- C1 (code bug): whatever the retrieval-mode override, the conversation
history and the rewrite outcome, the first (text) argument of the
searcher call issued by the RETRIEVE step is the ORIGINAL last user
message (rag.py line 321) — never the rewritten `query_text` and never
null — even though the mode-suppressed `query_text` local is `none` in
vector-only mode; and in text-only mode the vector argument is empty. -/
theorem c1_searcher_text_argument (o : Overrides) (history : List ChatMessage)
    (rm : ResponseMessage) (embed : String → List ℚ) (step : RetrieveStep)
    (hrun : run_retrieve_step o history rm embed = .ok step) :
    step.searcher_text_arg = lastContent history ∧
    (has_text o = false → step.query_text = none) ∧
    (has_vector o = false → step.searcher_vector_arg = []) := by
  unfold run_retrieve_step at hrun
  cases hget : get_search_query rm (lastContent history) with
  | error e =>
      rw [hget] at hrun
      simp at hrun
  | ok qt =>
      rw [hget] at hrun
      dsimp only at hrun
      rw [Except.ok.injEq] at hrun
      subst hrun
      exact ⟨rfl, fun h => by simp [h], fun h => by simp [h]⟩

/-- History used by the C1 witness: a single user turn. -/
def hist_redshoes : List ChatMessage :=
  [{ role := "user", content := "What red shoes do you have?" }]

/-- Rewrite response used by the C1 witness: a well-formed tool call whose
extracted search query is the rewritten text `red shoes`. -/
def rm_redshoes : ResponseMessage :=
  { tool_calls :=
      [ { type := "function"
        , function := { name := "search_sources"
                      , arguments := some [("search_query", "red shoes")] } } ]
  , content := none }

/-- Overrides selecting the vector-only retrieval mode. -/
def ovr_vectors : Overrides := { retrieval_mode := some "vectors" }

/-- Witness for C1: in vector-only mode with a successful rewrite to
`red shoes`, the searcher still receives the original user question as its
text argument while the suppressed `query_text` local is `none`. -/
theorem c1_searcher_text_argument_witness :
    run_retrieve_step ovr_vectors hist_redshoes rm_redshoes (fun _ => [1])
      = .ok { query_text := none, vector := [1]
            , searcher_text_arg := "What red shoes do you have?"
            , searcher_vector_arg := [1], searcher_top_arg := 3 } ∧
    has_text ovr_vectors = false ∧
    ({ query_text := none, vector := [1]
     , searcher_text_arg := "What red shoes do you have?"
     , searcher_vector_arg := [1], searcher_top_arg := 3 } : RetrieveStep).searcher_text_arg
      = lastContent hist_redshoes ∧
    ({ query_text := none, vector := [1]
     , searcher_text_arg := "What red shoes do you have?"
     , searcher_vector_arg := [1], searcher_top_arg := 3 } : RetrieveStep).query_text = none := by
  have hrun : run_retrieve_step ovr_vectors hist_redshoes rm_redshoes (fun _ => [1])
      = .ok { query_text := none, vector := [1]
            , searcher_text_arg := "What red shoes do you have?"
            , searcher_vector_arg := [1], searcher_top_arg := 3 } := rfl
  have h := c1_searcher_text_argument ovr_vectors hist_redshoes rm_redshoes
    (fun _ => [1]) _ hrun
  exact ⟨hrun, rfl, h.1, h.2.1 rfl⟩

/-- Truncation result of the modelled oldest-first drop never exceeds the
budget. -/
theorem totalTokens_dropOldest_le (tok : ChatMessage → Nat) (b : Nat) :
    ∀ l : List ChatMessage, totalTokens tok (dropOldest tok b l) ≤ b
  | [] => by simp [dropOldest, totalTokens]
  | m :: rest => by
      rw [dropOldest]
      split
      · next h => exact h
      · exact totalTokens_dropOldest_le tok b rest

/-- The modelled oldest-first drop keeps a suffix of the history. -/
theorem dropOldest_suffix (tok : ChatMessage → Nat) (b : Nat) :
    ∀ l : List ChatMessage, List.IsSuffix (dropOldest tok b l) l
  | [] => List.suffix_refl _
  | m :: rest => by
      rw [dropOldest]
      split
      · exact List.suffix_refl _
      · exact (dropOldest_suffix tok b rest).trans (List.suffix_cons m rest)

/-- System message assembled at rag.py line 338. -/
def sys_message (prompt_template : Option String) : ChatMessage :=
  { role := "system", content := get_system_prompt prompt_template }

/-- Final user message assembled at rag.py line 340: the original query
concatenated with the serialized sources block. -/
def user_sources_message (ouq : String) (items : List SourceItem) : ChatMessage :=
  { role := "user"
  , content := ouq ++ "\n\nSources:\n"
      ++ String.intercalate "\n" (get_sources_content items) }

/-- Unfolding of the ASSEMBLE step into its three segments. -/
theorem assemble_messages_eq (tok : ChatMessage → Nat) (g : Nat)
    (pt : Option String) (ouq : String) (items : List SourceItem)
    (history : List ChatMessage) :
    assemble_messages tok g pt ouq items history
      = sys_message pt
        :: (dropOldest tok
              (g - response_token_limit - tok (sys_message pt)
                - tok (user_sources_message ouq items)) history
            ++ [user_sources_message ouq items]) := rfl

/-- C8: whenever the system instruction and the final user+sources message
fit the budget by themselves, the assembled generation prompt stays within
`model_token_limit - 1024`, its head is the system instruction, its last
element is the final user message (original query plus serialized sources
block), and the retained history turns form a suffix of the history — the
oldest turns are dropped first.  The over-budget hypothesis mirrors the
premise of the claim. -/
theorem c8_token_budget (tok : ChatMessage → Nat) (gpt_token_limit : Nat)
    (pt : Option String) (ouq : String) (items : List SourceItem)
    (history : List ChatMessage)
    (hfit : tok (sys_message pt) + tok (user_sources_message ouq items)
      ≤ gpt_token_limit - response_token_limit)
    (hover : gpt_token_limit - response_token_limit
      < totalTokens tok
          (sys_message pt :: (history ++ [user_sources_message ouq items]))) :
    (assemble_messages tok gpt_token_limit pt ouq items history).head?
      = some (sys_message pt) ∧
    (assemble_messages tok gpt_token_limit pt ouq items history).getLast?
      = some (user_sources_message ouq items) ∧
    totalTokens tok (assemble_messages tok gpt_token_limit pt ouq items history)
      ≤ gpt_token_limit - response_token_limit ∧
    ∃ kept, List.IsSuffix kept history ∧
      assemble_messages tok gpt_token_limit pt ouq items history
        = sys_message pt :: (kept ++ [user_sources_message ouq items]) := by
  rw [assemble_messages_eq]
  set b := gpt_token_limit - response_token_limit - tok (sys_message pt)
    - tok (user_sources_message ouq items) with hb
  refine ⟨rfl, ?_, ?_, dropOldest tok b history, dropOldest_suffix tok b history, rfl⟩
  · rw [show (sys_message pt :: (dropOldest tok b history ++ [user_sources_message ouq items]))
        = (sys_message pt :: dropOldest tok b history) ++ [user_sources_message ouq items]
      from rfl]
    exact List.getLast?_concat _
  · have hk := totalTokens_dropOldest_le tok b history
    have hgoal : totalTokens tok
        (sys_message pt :: (dropOldest tok b history ++ [user_sources_message ouq items]))
        = tok (sys_message pt) + (totalTokens tok (dropOldest tok b history)
          + tok (user_sources_message ouq items)) := by
      simp [totalTokens]
    rw [hgoal]
    omega

/-- Witness for C8 at a concrete over-budget history: a 1044-token limit
leaves a 20-token budget, the fixed parts take 15 tokens, and of the two
history turns (10 and 3 tokens) only the newest survives. -/
theorem c8_token_budget_witness :
    ((fun m : ChatMessage => m.content.length) (sys_message (some "sys"))
        + (fun m : ChatMessage => m.content.length) (user_sources_message "a" [])
      ≤ 1044 - response_token_limit) ∧
    (1044 - response_token_limit
      < totalTokens (fun m : ChatMessage => m.content.length)
          (sys_message (some "sys")
            :: ([ { role := "user", content := "0123456789" }
                , { role := "assistant", content := "abc" } ]
              ++ [user_sources_message "a" []]))) ∧
    (assemble_messages (fun m : ChatMessage => m.content.length) 1044 (some "sys") "a" []
        [ { role := "user", content := "0123456789" }
        , { role := "assistant", content := "abc" } ]).head?
      = some (sys_message (some "sys")) ∧
    (assemble_messages (fun m : ChatMessage => m.content.length) 1044 (some "sys") "a" []
        [ { role := "user", content := "0123456789" }
        , { role := "assistant", content := "abc" } ]).getLast?
      = some (user_sources_message "a" []) ∧
    totalTokens (fun m : ChatMessage => m.content.length)
        (assemble_messages (fun m : ChatMessage => m.content.length) 1044 (some "sys") "a" []
          [ { role := "user", content := "0123456789" }
          , { role := "assistant", content := "abc" } ])
      ≤ 1044 - response_token_limit := by
  have hfit : (fun m : ChatMessage => m.content.length) (sys_message (some "sys"))
      + (fun m : ChatMessage => m.content.length) (user_sources_message "a" [])
      ≤ 1044 - response_token_limit := by decide
  have hover : 1044 - response_token_limit
      < totalTokens (fun m : ChatMessage => m.content.length)
          (sys_message (some "sys")
            :: ([ { role := "user", content := "0123456789" }
                , { role := "assistant", content := "abc" } ]
              ++ [user_sources_message "a" []])) := by decide
  have h := c8_token_budget (fun m : ChatMessage => m.content.length) 1044 (some "sys") "a" []
    [ { role := "user", content := "0123456789" }
    , { role := "assistant", content := "abc" } ] hfit hover
  exact ⟨hfit, hover, h.1, h.2.1, h.2.2.1⟩

/-- Every row of the outer join carries the fused score of its id, and its
id stems from one of the two sub-rankings. -/
theorem mem_fusedRows {vs ks : List (Nat × Nat)} {pr : Nat × ℚ}
    (h : pr ∈ fusedRows vs ks) :
    pr.2 = rrfScore vs ks pr.1 ∧ (pr.1 ∈ idsOf vs ∨ pr.1 ∈ idsOf ks) := by
  rcases List.mem_map.mp h with ⟨i, hi, rfl⟩
  refine ⟨rfl, ?_⟩
  rcases List.mem_append.mp hi with h1 | h1
  · exact Or.inl h1
  · exact Or.inr (List.mem_filter.mp h1).1

/-- Sortedness of scored rows transfers to sortedness of their ids under
the fused-score ordering. -/
theorem pairwise_ids_of_rows {vs ks : List (Nat × Nat)} {l : List (Nat × ℚ)}
    (hsub : ∀ pr ∈ l, pr ∈ fusedRows vs ks)
    (hp : l.Pairwise (fun a b => b.2 ≤ a.2)) :
    (l.map Prod.fst).Pairwise (fun i j => rrfScore vs ks j ≤ rrfScore vs ks i) := by
  rw [List.pairwise_map]
  exact hp.imp_of_mem (fun {a b} ha hb hab => by
    rw [← (mem_fusedRows (hsub a ha)).1, ← (mem_fusedRows (hsub b hb)).1]
    exact hab)

/-- C3 (amended): for every filter-free hybrid search output, the returned
id list has length at most `top_k`, is sorted by non-increasing fused
score, and every returned id appears in at least one of the two
sub-rankings.  The claimed lower-item-id tie-break is NOT guaranteed: the
hybrid statement orders by `score DESC` alone (postgres_searcher.py line
57), so the order of tied rows is unspecified — see the counterexample. -/
theorem c3_fusion_output (db : CatalogDB) (s : String) (v : ℚ) (qv : List ℚ)
    (top : Nat) (ids : List Nat)
    (h : IsSearchOutput db (some s) (v :: qv) top (.ok ids)) :
    ids.length ≤ top ∧
    ∃ vs ks, IsVectorRows db vs ∧ IsKeywordRows db ks ∧
      ids.Pairwise (fun i j => rrfScore vs ks j ≤ rrfScore vs ks i) ∧
      ∀ i ∈ ids, i ∈ idsOf vs ∨ i ∈ idsOf ks := by
  obtain ⟨vs, ks, rows, hvs, hks, ⟨p, hperm, hsort, hro⟩, hout⟩ := h
  have hids : ids = (rows.take top).map Prod.fst := Except.ok.inj hout
  have hsub : ∀ pr ∈ rows.take top, pr ∈ fusedRows vs ks := by
    intro pr hpr
    have h1 : pr ∈ rows := List.mem_of_mem_take hpr
    have h2 : pr ∈ p := by
      rw [hro] at h1
      exact List.mem_of_mem_take h1
    exact hperm.mem_iff.mp h2
  constructor
  · rw [hids, List.length_map]
    exact List.length_take_le _ _
  · refine ⟨vs, ks, hvs, hks, ?_, ?_⟩
    · have hpw : (rows.take top).Pairwise (fun a b => b.2 ≤ a.2) := by
        refine List.Pairwise.sublist (List.take_sublist _ _) ?_
        rw [hro]
        exact List.Pairwise.sublist (List.take_sublist _ _) hsort
      rw [hids]
      exact pairwise_ids_of_rows hsub hpw
    · intro i hi
      rw [hids] at hi
      rcases List.mem_map.mp hi with ⟨pr, hpr, rfl⟩
      exact (mem_fusedRows (hsub pr hpr)).2

/-- Concrete two-item catalog: item 2 is nearer to the query vector, item
1 has the higher full-text relevance, both match and pass. -/
def db0 : CatalogDB :=
  { ids := [1, 2]
  , dist := fun i => if i = 1 then 2 else 1
  , rel := fun i => if i = 1 then 2 else 1
  , tsmatch := fun _ => true
  , passes := fun _ => true }

/-- Vector sub-ranking of `db0`: item 2 at rank 1, item 1 at rank 2. -/
def vs0 : List (Nat × Nat) := [(2, 1), (1, 2)]

/-- Keyword sub-ranking of `db0`: item 1 at rank 1, item 2 at rank 2. -/
def ks0 : List (Nat × Nat) := [(1, 1), (2, 2)]

/-- The vector sub-query of `db0` produces `vs0`. -/
theorem db0_vector_rows : IsVectorRows db0 vs0 := by
  refine ⟨[2, 1], ?_, by decide, by decide⟩
  rw [show passSet db0 = [1, 2] from rfl]
  exact List.Perm.swap 1 2 []

/-- The keyword sub-query of `db0` produces `ks0`. -/
theorem db0_keyword_rows : IsKeywordRows db0 ks0 := by
  refine ⟨[1, 2], ?_, by decide, by decide⟩
  rw [show kSet db0 = [1, 2] from rfl]

/-- Fused score of item 2 over the sub-rankings of `db0`. -/
theorem db0_score_2 : rrfScore vs0 ks0 2 = 1 / 61 + 1 / 62 := by
  have h2v : rankOf vs0 2 = some 1 := rfl
  have h2k : rankOf ks0 2 = some 2 := rfl
  rw [rrfScore, h2v, h2k]
  norm_num [rrfTerm, rrf_k]

/-- Fused score of item 1 over the sub-rankings of `db0`. -/
theorem db0_score_1 : rrfScore vs0 ks0 1 = 1 / 62 + 1 / 61 := by
  have h1v : rankOf vs0 1 = some 2 := rfl
  have h1k : rankOf ks0 1 = some 1 := rfl
  rw [rrfScore, h1v, h1k]
  norm_num [rrfTerm, rrf_k]

/-- Evaluation of the outer join over the sub-rankings of `db0`. -/
theorem db0_fused_eval :
    fusedRows vs0 ks0 = [(2, 1 / 61 + 1 / 62), (1, 1 / 62 + 1 / 61)] := by
  have hj : joinIds vs0 ks0 = [2, 1] := by decide
  rw [fusedRows, hj]
  simp only [List.map_cons, List.map_nil, db0_score_1, db0_score_2]

/-- The fused rows of `vs0` and `ks0`, listed with item 2 first, are a
valid hybrid result: both items carry the same fused score. -/
theorem db0_hybrid_rows :
    IsHybridRows vs0 ks0 [(2, 1 / 61 + 1 / 62), (1, 1 / 62 + 1 / 61)] := by
  refine ⟨[(2, 1 / 61 + 1 / 62), (1, 1 / 62 + 1 / 61)], ?_, ?_, rfl⟩
  · rw [db0_fused_eval]
  · constructor
    · intro b hb
      rw [List.mem_singleton] at hb
      subst hb
      norm_num
    · exact List.pairwise_singleton _ _

/-- A full hybrid search over `db0` may return `[2, 1]`. -/
theorem db0_search_output :
    IsSearchOutput db0 (some "red shoes") [1] 5 (.ok [2, 1]) := by
  refine ⟨vs0, ks0, [(2, 1 / 61 + 1 / 62), (1, 1 / 62 + 1 / 61)],
    db0_vector_rows, db0_keyword_rows, db0_hybrid_rows, ?_⟩
  rfl

/-- C3 counterexample: over `db0` the two items receive equal fused scores
(1/61 + 1/62 each) and the output `[2, 1]` is a valid search result, yet
it lists the higher id first — the claimed lower-item-id tie-break fails
on the code, whose hybrid statement has no secondary sort key. -/
theorem c3_counterexample :
    IsSearchOutput db0 (some "red shoes") [1] 5 (.ok [2, 1]) ∧
    rrfScore vs0 ks0 2 = rrfScore vs0 ks0 1 ∧
    ¬ List.Pairwise (fun i j => rrfScore vs0 ks0 i = rrfScore vs0 ks0 j → i < j)
      [2, 1] := by
  have heq : rrfScore vs0 ks0 2 = rrfScore vs0 ks0 1 := by
    rw [db0_score_1, db0_score_2]
    ring
  refine ⟨db0_search_output, heq, fun h => ?_⟩
  have h21 := (List.pairwise_cons.mp h).1 1 (by simp)
  exact absurd (h21 heq) (by norm_num)

/-- Witness for C3 (amended) at the concrete catalog `db0`. -/
theorem c3_fusion_output_witness :
    IsSearchOutput db0 (some "red shoes") [1] 5 (.ok [2, 1]) ∧
    ([2, 1] : List Nat).length ≤ 5 ∧
    (∃ vs ks, IsVectorRows db0 vs ∧ IsKeywordRows db0 ks ∧
      ([2, 1] : List Nat).Pairwise (fun i j => rrfScore vs ks j ≤ rrfScore vs ks i) ∧
      ∀ i ∈ ([2, 1] : List Nat), i ∈ idsOf vs ∨ i ∈ idsOf ks) := by
  have h := c3_fusion_output db0 "red shoes" 1 [] 5 [2, 1] db0_search_output
  exact ⟨db0_search_output, h.1, h.2⟩

/-- Projecting the first components out of an id-keyed pairing recovers
the id list. -/
theorem map_fst_map_pair (f : Nat → Nat) (l : List Nat) :
    (l.map (fun i => (i, f i))).map Prod.fst = l := by
  induction l with
  | nil => rfl
  | cons a t ih => simp [ih]

/-- C7: with an empty query vector and a present query text, the search
output is exactly the keyword-only ranking — a relevance-descending
ordering of the tsquery-matching items — truncated by `LIMIT 20` and then
to `top_k`, with no score fabricated from the absent vector branch;
symmetrically, with only a query vector the output is the distance-
ascending vector ranking truncated the same way. -/
theorem c7_single_branch (db : CatalogDB) (s : String) (v : ℚ) (qv : List ℚ)
    (top : Nat) (kids vids : List Nat)
    (hk : IsSearchOutput db (some s) [] top (.ok kids))
    (hv : IsSearchOutput db none (v :: qv) top (.ok vids)) :
    (kids.length ≤ top ∧
      (∃ p : List Nat, p.Perm (kSet db) ∧ p.Pairwise (fun a b => db.rel b ≤ db.rel a) ∧
        kids = (p.take 20).take top) ∧
      ∀ i ∈ kids, db.tsmatch i = true ∧ i ∈ db.ids) ∧
    (vids.length ≤ top ∧
      ∃ p : List Nat, p.Perm (passSet db) ∧ p.Pairwise (fun a b => db.dist a ≤ db.dist b) ∧
        vids = (p.take 20).take top) := by
  obtain ⟨ks, ⟨p, hperm, hsort, hkrows⟩, hout⟩ := hk
  obtain ⟨vs, ⟨q, hqperm, hqsort, hvrows⟩, hvout⟩ := hv
  have hkids : kids = (p.take 20).take top := by
    have h1 : kids = (ks.take top).map Prod.fst := Except.ok.inj hout
    rw [hkrows, ← List.map_take, ← List.map_take, map_fst_map_pair] at h1
    exact h1
  have hvids : vids = (q.take 20).take top := by
    have h1 : vids = (vs.take top).map Prod.fst := Except.ok.inj hvout
    rw [hvrows, ← List.map_take, ← List.map_take, map_fst_map_pair] at h1
    exact h1
  refine ⟨⟨?_, ⟨p, hperm, hsort, hkids⟩, ?_⟩, ?_, ⟨q, hqperm, hqsort, hvids⟩⟩
  · rw [hkids]
    exact List.length_take_le _ _
  · intro i hi
    rw [hkids] at hi
    have hp : i ∈ p := List.mem_of_mem_take (List.mem_of_mem_take hi)
    have hkmem : i ∈ kSet db := hperm.mem_iff.mp hp
    have := List.mem_filter.mp hkmem
    exact ⟨(Bool.and_eq_true_iff.mp this.2).1, this.1⟩
  · rw [hvids]
    exact List.length_take_le _ _

/-- Concrete two-item catalog for the C7 witness, with the same geometry
as `db0`. -/
def db1 : CatalogDB :=
  { ids := [1, 2]
  , dist := fun i => if i = 1 then 2 else 1
  , rel := fun i => if i = 1 then 2 else 1
  , tsmatch := fun _ => true
  , passes := fun _ => true }

/-- A keyword-only search over `db1` returns the relevance-descending ids. -/
theorem db1_keyword_output :
    IsSearchOutput db1 (some "shoes") [] 3 (.ok [1, 2]) := by
  refine ⟨[(1, 1), (2, 2)], ⟨[1, 2], ?_, by decide, by decide⟩, ?_⟩
  · rw [show kSet db1 = [1, 2] from rfl]
  · rw [show ((([(1, 1), (2, 2)] : List (Nat × Nat)).take 3).map Prod.fst) = [1, 2]
      by decide]

/-- A vector-only search over `db1` returns the distance-ascending ids. -/
theorem db1_vector_output :
    IsSearchOutput db1 none [1] 3 (.ok [2, 1]) := by
  refine ⟨[(2, 1), (1, 2)], ⟨[2, 1], ?_, by decide, by decide⟩, ?_⟩
  · rw [show passSet db1 = [1, 2] from rfl]
    exact List.Perm.swap 1 2 []
  · rw [show ((([(2, 1), (1, 2)] : List (Nat × Nat)).take 3).map Prod.fst) = [2, 1]
      by decide]

/-- Witness for C7 at the concrete catalog `db1`. -/
theorem c7_single_branch_witness :
    IsSearchOutput db1 (some "shoes") [] 3 (.ok [1, 2]) ∧
    IsSearchOutput db1 none [1] 3 (.ok [2, 1]) ∧
    ([1, 2] : List Nat).length ≤ 3 ∧
    (∃ p : List Nat, p.Perm (kSet db1) ∧ p.Pairwise (fun a b => db1.rel b ≤ db1.rel a) ∧
      ([1, 2] : List Nat) = (p.take 20).take 3) ∧
    (∃ p : List Nat, p.Perm (passSet db1) ∧ p.Pairwise (fun a b => db1.dist a ≤ db1.dist b) ∧
      ([2, 1] : List Nat) = (p.take 20).take 3) := by
  have h := c7_single_branch db1 "shoes" 1 [] 3 [1, 2] [2, 1]
    db1_keyword_output db1_vector_output
  exact ⟨db1_keyword_output, db1_vector_output, h.1.1, h.1.2.1, h.2.2⟩

end RagOnPostgres
